import Mathlib

/-!
Verification of the broot preview-panel controller (PreviewState).

A shallow embedding of `src/preview/preview_state.rs`: the state machine
that owns one base preview plus an optional filtered overlay, arbitrates
between them, and mediates pattern, mode, selection and navigation
commands.

External collaborators (`Preview`, `InputPattern`, the mode resolver
`Preview::new` / `Preview::with_mode`, the cancellable filtering call
`Preview::filtered`) are not part of the given source; they are modelled
from the interface contracts in section 6 of the spec and, where the
controller only forwards to them, passed in as explicit function
parameters so theorems quantify over every possible collaborator
behaviour.
-/

namespace Broot

/-- The three preview render modes (`PreviewMode` in the source). -/
inductive PreviewMode where
  | Image
  | Text
  | Hex
deriving DecidableEq, Repr

/-- Debug rendering of a mode, as the Rust debug formatting produces it. -/
def PreviewMode.debug : PreviewMode → String
  | .Image => "Image"
  | .Text => "Text"
  | .Hex => "Hex"

/-- Modelled from the spec: `Pattern` — "an optional search expression";
`InputPattern` in the source, carrying raw input text or being absent
(`InputPattern::none()`). -/
structure InputPattern where
  raw : Option String
deriving DecidableEq, Repr

/-- Embeds `InputPattern::none()`: the absent pattern. -/
def InputPattern.none : InputPattern := ⟨Option.none⟩

/-- Embeds `InputPattern::is_some`. -/
def InputPattern.is_some (p : InputPattern) : Bool := p.raw.isSome

/-- Embeds `InputPattern::is_none`. -/
def InputPattern.is_none (p : InputPattern) : Bool := p.raw.isNone

/-- Modelled from the spec: the external `Preview` capability — "a
renderable, optionally-selectable view of file content in one mode",
exposing its mode, whether it supports filtering, its selected line, the
pattern that produced it, and the line occupying each visible body row. -/
structure Preview where
  mode : Option PreviewMode
  filterable : Bool
  /-- line numbers present in this view -/
  lineNumbers : List Nat
  selectedLine : Option Nat
  /-- the pattern this (filtered) preview was built from -/
  pat : InputPattern
  /-- the line number occupying each body row, top row first -/
  rowLines : List (Option Nat)
  /-- abstract scroll position, in pages -/
  scrollPages : Int
deriving DecidableEq, Repr

/-- Embeds `Preview::get_mode`. -/
def Preview.get_mode (p : Preview) : Option PreviewMode := p.mode

/-- Embeds `Preview::is_filterable`. -/
def Preview.is_filterable (p : Preview) : Bool := p.filterable

/-- Embeds `Preview::get_selected_line_number`. -/
def Preview.get_selected_line_number (p : Preview) : Option Nat :=
  p.selectedLine

/-- Embeds `Preview::pattern`. -/
def Preview.pattern (p : Preview) : InputPattern := p.pat

/-- Modelled from the spec: `Preview::try_select_line_number` — selects
the line with the given number on a best-effort basis: "no match ⇒
selection left untouched". -/
def Preview.try_select_line_number (p : Preview) (n : Nat) : Preview :=
  if n ∈ p.lineNumbers then { p with selectedLine := some n } else p

/-- Modelled from the spec: `Preview::try_select_y` — "ask the effective
view to select whatever occupies that row"; a row holding no numbered
line leaves the selection unchanged. -/
def Preview.try_select_y (p : Preview) (y : Nat) : Preview :=
  match p.rowLines.getD y Option.none with
  | some n => { p with selectedLine := some n }
  | Option.none => p

/-- Modelled from the spec: `Preview::select_next_line` — "move selection
by one step; no-op if the view has no selectable content". -/
def Preview.select_next_line (p : Preview) : Preview :=
  match p.selectedLine with
  | some n =>
      match p.lineNumbers.find? (fun m => n < m) with
      | some m => { p with selectedLine := some m }
      | Option.none => p
  | Option.none =>
      match p.lineNumbers with
      | [] => p
      | m :: _ => { p with selectedLine := some m }

/-- Modelled from the spec: `Preview::select_previous_line`. -/
def Preview.select_previous_line (p : Preview) : Preview :=
  match p.selectedLine with
  | some n =>
      match (p.lineNumbers.filter (fun m => m < n)).getLast? with
      | some m => { p with selectedLine := some m }
      | Option.none => p
  | Option.none =>
      match p.lineNumbers.getLast? with
      | some m => { p with selectedLine := some m }
      | Option.none => p

/-- Modelled from the spec: `Preview::select_first` — "jump to an
extreme". -/
def Preview.select_first (p : Preview) : Preview :=
  match p.lineNumbers with
  | [] => p
  | m :: _ => { p with selectedLine := some m }

/-- Modelled from the spec: `Preview::select_last`. -/
def Preview.select_last (p : Preview) : Preview :=
  match p.lineNumbers.getLast? with
  | some m => { p with selectedLine := some m }
  | Option.none => p

/-- Modelled from the spec: `Preview::try_scroll` — "moves the visible
window by one page in the given (signed) direction"; the window position
is kept abstract as a page offset. -/
def Preview.try_scroll (p : Preview) (pages : Int) : Preview :=
  { p with scrollPages := p.scrollPages + pages }

/-- Embeds `Area` (from termimad): the screen rectangle assigned to the panel
body. Terminal coordinates are small 16-bit values, modelled as `Nat`. -/
structure Area where
  left : Nat
  top : Nat
  width : Nat
  height : Nat
deriving DecidableEq, Repr

/-- Embeds `AppStateCmdResult`, restricted to
the variants this controller produces. -/
inductive AppStateCmdResult where
  | Keep
  | PopState
  | DisplayError (msg : String)
deriving DecidableEq, Repr

/-- State of the controller (`PreviewState`), with the fields declared in the
source (`preview_area`, `dirty`, `path`, `preview`, `pending_pattern`,
`filtered_preview`, `removed_pattern`, `prefered_mode`). Scrolling
state lives inside the external previews and is modelled separately. -/
structure PreviewState where
  preview_area : Area
  dirty : Bool
  path : String
  preview : Preview
  pending_pattern : InputPattern
  filtered_preview : Option Preview
  removed_pattern : InputPattern
  prefered_mode : Option PreviewMode
deriving DecidableEq, Repr

namespace PreviewState

/-- Embeds `PreviewState::new`: the resolver (`Preview::new`) is passed in as
`resolve`. -/
def new (path : String) (pending_pattern : InputPattern)
    (prefered_mode : Option PreviewMode) (area : Area)
    (resolve : String → Option PreviewMode → Preview) : PreviewState :=
  { preview_area := area
    dirty := true
    path := path
    preview := resolve path prefered_mode
    pending_pattern := pending_pattern
    filtered_preview := Option.none
    removed_pattern := InputPattern.none
    prefered_mode := prefered_mode }

/-- Embeds `PreviewState::mut_preview`: the effective view — the filtered
overlay if present, else the base preview. -/
def mut_preview (st : PreviewState) : Preview :=
  st.filtered_preview.getD st.preview

/-- Applying a mutation through `mut_preview`: the overlay is updated
when present, else the base preview. -/
def with_mut_preview (st : PreviewState) (f : Preview → Preview) :
    PreviewState :=
  match st.filtered_preview with
  | some fp => { st with filtered_preview := some (f fp) }
  | Option.none => { st with preview := f st.preview }

/-- Embeds `PreviewState::set_mode`: the resolver (`Preview::with_mode`) is
passed in as `with_mode`; a `String` models the debug rendering of the
underlying `ProgramError`. -/
def set_mode (st : PreviewState) (mode : PreviewMode)
    (with_mode : String → PreviewMode → Except String Preview) :
    AppStateCmdResult × PreviewState :=
  if st.preview.get_mode = some mode then
    (AppStateCmdResult.Keep, st)
  else
    match with_mode st.path mode with
    | Except.ok preview =>
        (AppStateCmdResult.Keep,
          { st with preview := preview, prefered_mode := some mode })
    | Except.error e =>
        (AppStateCmdResult.DisplayError
          ("Can\x27t display as " ++ mode.debug ++ " : " ++ e), st)

/-- Embeds `PreviewState::get_pending_task`. -/
def get_pending_task (st : PreviewState) : Option String :=
  if st.pending_pattern.is_some then some "searching" else Option.none

/-- Embeds `AppState::on_pattern` for `PreviewState`. -/
def on_pattern (st : PreviewState) (pat : InputPattern) :
    AppStateCmdResult × PreviewState :=
  if pat.is_none then
    let st :=
      match st.filtered_preview with
      | some filtered_preview =>
          let old_selection := filtered_preview.get_selected_line_number
          let preview :=
            match old_selection with
            | some number => st.preview.try_select_line_number number
            | Option.none => st.preview
          { st with
              preview := preview
              filtered_preview := Option.none
              removed_pattern := filtered_preview.pattern }
      | Option.none => st
    (AppStateCmdResult.Keep, { st with pending_pattern := pat })
  else
    if !st.preview.is_filterable then
      (AppStateCmdResult.DisplayError "this preview can\x27t be searched",
        st)
    else
      (AppStateCmdResult.Keep, { st with pending_pattern := pat })

/-- Embeds `AppState::do_pending_task` for `PreviewState`: the external
filtering call `self.preview.filtered(&self.path, pattern, dam, con)` is
passed in as `filt` (its result "can be None if a cancellation was
required"). -/
def do_pending_task (st : PreviewState)
    (filt : InputPattern → Option Preview) : PreviewState :=
  if st.pending_pattern.is_some then
    let old_selection :=
      (st.filtered_preview.bind
          (fun p => p.get_selected_line_number)).orElse
        (fun _ => st.preview.get_selected_line_number)
    let pattern := st.pending_pattern
    let st := { st with pending_pattern := InputPattern.none }
    let filtered :=
      match filt pattern, old_selection with
      | some fp, some number => some (fp.try_select_line_number number)
      | some fp, Option.none => some fp
      | Option.none, _ => Option.none
    { st with filtered_preview := filtered }
  else st

/-- Embeds `AppState::set_selected_path` for `PreviewState`: the resolver
(`Preview::new`) is passed in as `resolve`. -/
def set_selected_path (st : PreviewState) (path : String)
    (resolve : String → Option PreviewMode → Preview) : PreviewState :=
  let st :=
    match st.filtered_preview with
    | some fp => { st with pending_pattern := fp.pattern }
    | Option.none => st
  { st with preview := resolve path st.prefered_mode, path := path }

/-- Embeds `SelectionType`, restricted to what this controller emits. -/
inductive SelectionType where
  | File
deriving DecidableEq, Repr

/-- The selection descriptor exposed to the host. -/
structure Selection where
  path : String
  stype : SelectionType
  line : Nat
deriving DecidableEq, Repr

/-- Embeds `AppState::selection` for `PreviewState`. -/
def selection (st : PreviewState) : Selection :=
  { path := st.path
    stype := SelectionType.File
    line := (st.preview.get_selected_line_number).getD 0 }

/-- Embeds `AppState::on_click` for `PreviewState` (the x coordinate is
unused by the source). -/
def on_click (st : PreviewState) (_x y : Nat) :
    AppStateCmdResult × PreviewState :=
  if st.preview_area.top ≤ y ∧
      y < st.preview_area.top + st.preview_area.height then
    let y := y - st.preview_area.top
    (AppStateCmdResult.Keep,
      st.with_mut_preview (fun p => p.try_select_y y))
  else
    (AppStateCmdResult.Keep, st)

/-- The internal actions handled by `PreviewState::on_internal`;
`other` stands for every action its final `_` arm delegates. -/
inductive Internal where
  | back
  | line_down
  | line_up
  | page_down
  | page_up
  | panel_left
  | panel_right
  | select_first
  | select_last
  | preview_image
  | preview_text
  | preview_binary
  | other
deriving DecidableEq, Repr

/-- The outcome of `on_internal`: either one of the controller command
results, or delegation to the external generic handler
(`on_internal_generic`), which receives the state untouched by this
dispatcher. -/
inductive InternalResult where
  | cmd (r : AppStateCmdResult)
  | generic
deriving DecidableEq, Repr

/-- Embeds `AppState::on_internal` for `PreviewState`. -/
def on_internal (st : PreviewState) (i : Internal)
    (with_mode : String → PreviewMode → Except String Preview) :
    InternalResult × PreviewState :=
  match i with
  | Internal.back =>
      if st.filtered_preview.isSome then
        let (r, st) := st.on_pattern InputPattern.none
        (InternalResult.cmd r, st)
      else
        (InternalResult.cmd AppStateCmdResult.PopState, st)
  | Internal.line_down =>
      (InternalResult.cmd AppStateCmdResult.Keep,
        st.with_mut_preview Preview.select_next_line)
  | Internal.line_up =>
      (InternalResult.cmd AppStateCmdResult.Keep,
        st.with_mut_preview Preview.select_previous_line)
  | Internal.page_down =>
      (InternalResult.cmd AppStateCmdResult.Keep,
        st.with_mut_preview (fun p => p.try_scroll 1))
  | Internal.page_up =>
      (InternalResult.cmd AppStateCmdResult.Keep,
        st.with_mut_preview (fun p => p.try_scroll (-1)))
  | Internal.panel_left =>
      if st.removed_pattern.is_some then
        (InternalResult.cmd AppStateCmdResult.Keep,
          { st with
              pending_pattern := st.removed_pattern
              removed_pattern := InputPattern.none })
      else
        (InternalResult.generic, st)
  | Internal.panel_right =>
      if st.filtered_preview.isSome then
        let (r, st) := st.on_pattern InputPattern.none
        (InternalResult.cmd r, st)
      else
        (InternalResult.generic, st)
  | Internal.select_first =>
      (InternalResult.cmd AppStateCmdResult.Keep,
        st.with_mut_preview Preview.select_first)
  | Internal.select_last =>
      (InternalResult.cmd AppStateCmdResult.Keep,
        st.with_mut_preview Preview.select_last)
  | Internal.preview_image =>
      let (r, st) := st.set_mode PreviewMode.Image with_mode
      (InternalResult.cmd r, st)
  | Internal.preview_text =>
      let (r, st) := st.set_mode PreviewMode.Text with_mode
      (InternalResult.cmd r, st)
  | Internal.preview_binary =>
      let (r, st) := st.set_mode PreviewMode.Hex with_mode
      (InternalResult.cmd r, st)
  | Internal.other =>
      (InternalResult.generic, st)

end PreviewState

/-! Concrete fixtures used to instantiate theorems with hypotheses and to
exhibit counterexamples. -/

/-- A concrete non-absent pattern, raw text "foo". -/
def fooPattern : InputPattern := ⟨some "foo"⟩

/-- A concrete non-absent pattern, raw text "bar". -/
def barPattern : InputPattern := ⟨some "bar"⟩

/-- A concrete filterable text preview with lines 1..3, line 2 selected. -/
def sampleBase : Preview :=
  { mode := some PreviewMode.Text
    filterable := true
    lineNumbers := [1, 2, 3]
    selectedLine := some 2
    pat := InputPattern.none
    rowLines := [some 1, some 2, some 3]
    scrollPages := 0 }

/-- A concrete filtered overlay for `fooPattern`, holding only line 2. -/
def sampleOverlay : Preview :=
  { mode := some PreviewMode.Text
    filterable := true
    lineNumbers := [2]
    selectedLine := some 2
    pat := fooPattern
    rowLines := [some 2]
    scrollPages := 0 }

/-- A concrete body rectangle: top row 1, 20 rows high. -/
def sampleArea : Area := ⟨0, 1, 80, 20⟩

/-- A concrete state whose filtered overlay is present. -/
def stWithOverlay : PreviewState :=
  { preview_area := sampleArea
    dirty := false
    path := "/a/report.txt"
    preview := sampleBase
    pending_pattern := InputPattern.none
    filtered_preview := some sampleOverlay
    removed_pattern := InputPattern.none
    prefered_mode := some PreviewMode.Text }

/-- A concrete state with both an overlay present and a pending pattern
(the user typed "bar" on top of the materialized "foo" filter). -/
def stPendingOverlay : PreviewState :=
  { stWithOverlay with pending_pattern := barPattern }

/-- A concrete state with no overlay and nothing pending. -/
def stPlain : PreviewState :=
  { stWithOverlay with filtered_preview := Option.none }

/-- A concrete state whose base preview is not filterable (hex mode). -/
def stNotFilterable : PreviewState :=
  { stPlain with
      preview :=
        { sampleBase with
            mode := some PreviewMode.Hex
            filterable := false } }

/-- A concrete state remembering the removed pattern "foo". -/
def stRemoved : PreviewState :=
  { stPlain with removed_pattern := fooPattern }

/-- A concrete resolver standing for `Preview::new`. -/
def resolveFixture : String → Option PreviewMode → Preview :=
  fun _ m =>
    { mode := m
      filterable := true
      lineNumbers := [1]
      selectedLine := Option.none
      pat := InputPattern.none
      rowLines := [some 1]
      scrollPages := 0 }

/-- A concrete always-succeeding `Preview::with_mode` resolver. -/
def withModeOk : String → PreviewMode → Except String Preview :=
  fun p m => Except.ok (resolveFixture p (some m))

/-- A concrete always-failing `Preview::with_mode` resolver. -/
def withModeErr : String → PreviewMode → Except String Preview :=
  fun _ _ => Except.error "NotAnImage"

/-! Claim C1: behaviour of `do_pending_task` when the external filtering
call is cancelled and yields nothing. The claim, as stated, is wrong: the
source assigns the (empty) result to `filtered_preview` unconditionally,
so a previously present overlay is discarded rather than left
unchanged. -/

/-- Claim C1 (counterexample): at a concrete state holding both a pending
pattern and a live overlay, a cancelled filtering pass does not leave the
state "exactly as before except that pendingPattern is consumed" — the
previously present `filtered_preview` is lost. -/
theorem c1_cancelled_filter_cex :
    stPendingOverlay.do_pending_task (fun _ => Option.none) ≠
      { stPendingOverlay with pending_pattern := InputPattern.none } := by
  decide

/-- Claim C1 (amended): if the filtering step of `do_pending_task` is
cancelled and yields nothing, the resulting state is the state before the
call except that `pending_pattern` is consumed (cleared) and
`filtered_preview` is set to absent (discarding any previously present
overlay); no error is raised. -/
theorem c1_cancelled_filter (st : PreviewState)
    (h : st.pending_pattern.is_some = true) :
    st.do_pending_task (fun _ => Option.none) =
      { st with
          pending_pattern := InputPattern.none
          filtered_preview := Option.none } := by
  simp only [PreviewState.do_pending_task, h, if_true]

/-- Claim C1 (witness): the amended theorem applied at a concrete
state. -/
theorem c1_cancelled_filter_witness :
    stPendingOverlay.pending_pattern.is_some = true ∧
      stPendingOverlay.do_pending_task (fun _ => Option.none) =
        { stPendingOverlay with
            pending_pattern := InputPattern.none
            filtered_preview := Option.none } :=
  ⟨by decide, c1_cancelled_filter stPendingOverlay (by decide)⟩

/-! Claim C2: behaviour of `set_selected_path`. The claim, as stated, is
wrong in one point: the source never clears `filtered_preview`, so the
overlay is not discarded — it is retained (now stale) and only replaced
once the re-armed pending pattern is next materialized. -/

/-- Claim C2 (counterexample): at a concrete state with a live overlay,
after `set_selected_path` the overlay is still present, contradicting the
claim that `filtered_preview` is absent after the call. -/
theorem c2_set_selected_path_cex :
    (stWithOverlay.set_selected_path "/b/other.txt" resolveFixture
      ).filtered_preview ≠ Option.none := by
  decide

/-- Claim C2 (amended): `set_selected_path` preserves `prefered_mode`,
rebuilds the base preview for the new path through the resolver using
`prefered_mode`, replaces `path`, and, if a filtered overlay exists,
demotes the pattern of the overlay to `pending_pattern`; the overlay
itself is not discarded — `filtered_preview` is left as it was, to be
replaced at the next materialization. -/
theorem c2_set_selected_path (st : PreviewState) (path : String)
    (resolve : String → Option PreviewMode → Preview) :
    (st.set_selected_path path resolve).prefered_mode = st.prefered_mode ∧
    (st.set_selected_path path resolve).path = path ∧
    (st.set_selected_path path resolve).preview =
      resolve path st.prefered_mode ∧
    (st.set_selected_path path resolve).filtered_preview =
      st.filtered_preview ∧
    (∀ fp, st.filtered_preview = some fp →
      (st.set_selected_path path resolve).pending_pattern = fp.pattern) ∧
    (st.filtered_preview = Option.none →
      (st.set_selected_path path resolve).pending_pattern =
        st.pending_pattern) := by
  cases h : st.filtered_preview <;>
    simp [PreviewState.set_selected_path, h]

/-- Claim C2 (witness): the amended theorem applied at a concrete state
with a live overlay — the pattern "foo" of the overlay is re-armed as
pending. -/
theorem c2_set_selected_path_witness :
    stWithOverlay.filtered_preview = some sampleOverlay ∧
      (stWithOverlay.set_selected_path "/b/other.txt" resolveFixture
        ).pending_pattern = sampleOverlay.pattern :=
  ⟨rfl,
    (c2_set_selected_path stWithOverlay "/b/other.txt" resolveFixture
      ).2.2.2.2.1 sampleOverlay rfl⟩

/-! Case lemmas for `on_pattern`, shared by several claims. -/

/-- With an absent pattern and a live overlay, `on_pattern` folds the
overlay selection back onto the base, stashes the overlay pattern into
`removed_pattern`, drops the overlay, and stores the pattern as
pending. -/
theorem on_pattern_none_overlay_eq (st : PreviewState) (fp : Preview)
    (p : InputPattern) (hp : p.is_none = true)
    (h : st.filtered_preview = some fp) :
    st.on_pattern p =
      (AppStateCmdResult.Keep,
        { st with
            preview :=
              match fp.get_selected_line_number with
              | some n => st.preview.try_select_line_number n
              | Option.none => st.preview
            filtered_preview := Option.none
            removed_pattern := fp.pattern
            pending_pattern := p }) := by
  simp only [PreviewState.on_pattern, hp, if_true, h]

/-- With an absent pattern and no overlay, `on_pattern` only stores the
pattern as pending. -/
theorem on_pattern_none_no_overlay_eq (st : PreviewState)
    (p : InputPattern) (hp : p.is_none = true)
    (h : st.filtered_preview = Option.none) :
    st.on_pattern p =
      (AppStateCmdResult.Keep, { st with pending_pattern := p }) := by
  simp only [PreviewState.on_pattern, hp, if_true, h]

/-- With a present pattern and a filterable base preview, `on_pattern`
only stores the pattern as pending. -/
theorem on_pattern_some_ok_eq (st : PreviewState) (p : InputPattern)
    (hp : p.is_none = false) (hf : st.preview.filterable = true) :
    st.on_pattern p =
      (AppStateCmdResult.Keep, { st with pending_pattern := p }) := by
  simp only [PreviewState.on_pattern, hp, Bool.false_eq_true, if_false,
    Preview.is_filterable, hf, Bool.not_true]

/-- With a present pattern and a non-filterable base preview,
`on_pattern` rejects the pattern and leaves the state untouched. -/
theorem on_pattern_some_reject_eq (st : PreviewState) (p : InputPattern)
    (hp : p.is_none = false) (hf : st.preview.filterable = false) :
    st.on_pattern p =
      (AppStateCmdResult.DisplayError "this preview can\x27t be searched",
        st) := by
  simp only [PreviewState.on_pattern, hp, Bool.false_eq_true, if_false,
    Preview.is_filterable, hf, Bool.not_false, if_true]

/-- Best-effort selection never changes whether a preview is
filterable. -/
theorem try_select_line_number_filterable (p : Preview) (n : Nat) :
    (p.try_select_line_number n).filterable = p.filterable := by
  unfold Preview.try_select_line_number
  split <;> rfl

/-- Whatever the pattern and state, `on_pattern` never changes whether
the base preview is filterable. -/
theorem on_pattern_preserves_filterable (st : PreviewState)
    (p : InputPattern) :
    (st.on_pattern p).2.preview.filterable = st.preview.filterable := by
  by_cases hp : p.is_none = true
  · cases h : st.filtered_preview with
    | none => rw [on_pattern_none_no_overlay_eq st p hp h]
    | some fp =>
        rw [on_pattern_none_overlay_eq st fp p hp h]
        cases fp.get_selected_line_number with
        | none => rfl
        | some n => exact try_select_line_number_filterable st.preview n
  · rw [Bool.not_eq_true] at hp
    cases hf : st.preview.filterable with
    | false => rw [on_pattern_some_reject_eq st p hp hf]; exact hf
    | true => rw [on_pattern_some_ok_eq st p hp hf]; exact hf

/-- When `on_pattern` answers Keep, the supplied pattern was stored as
pending. -/
theorem on_pattern_keep_pending (st : PreviewState) (p : InputPattern)
    (h : (st.on_pattern p).1 = AppStateCmdResult.Keep) :
    (st.on_pattern p).2.pending_pattern = p := by
  by_cases hp : p.is_none = true
  · cases hfp : st.filtered_preview with
    | none => rw [on_pattern_none_no_overlay_eq st p hp hfp]
    | some fp => rw [on_pattern_none_overlay_eq st fp p hp hfp]
  · rw [Bool.not_eq_true] at hp
    cases hf : st.preview.filterable with
    | false =>
        rw [on_pattern_some_reject_eq st p hp hf] at h
        exact absurd h (by simp)
    | true => rw [on_pattern_some_ok_eq st p hp hf]

/-- The pattern is accepted (Keep) exactly when it is absent or the base
preview is filterable. -/
theorem on_pattern_fst_keep_iff (st : PreviewState) (p : InputPattern) :
    (st.on_pattern p).1 = AppStateCmdResult.Keep ↔
      (p.is_none = true ∨ st.preview.filterable = true) := by
  by_cases hp : p.is_none = true
  · constructor
    · intro _; exact Or.inl hp
    · intro _
      cases hfp : st.filtered_preview with
      | none => rw [on_pattern_none_no_overlay_eq st p hp hfp]
      | some fp => rw [on_pattern_none_overlay_eq st fp p hp hfp]
  · rw [Bool.not_eq_true] at hp
    cases hf : st.preview.filterable with
    | false =>
        rw [on_pattern_some_reject_eq st p hp hf]
        simp [hp]
    | true =>
        rw [on_pattern_some_ok_eq st p hp hf]
        simp

/-! Claim C3: clearing the pattern while an overlay is present. -/

/-- Claim C3 (confirmed): with a filtered overlay present, `on_pattern`
with the absent pattern captures the selected line of the overlay and
applies it to the base preview on a best-effort basis (when the base has
no such line its selection is untouched), stashes the overlay pattern
into `removed_pattern`, discards the overlay, sets `pending_pattern` to
the absent pattern, and answers Keep. -/
theorem c3_clear_filter (st : PreviewState) (fp : Preview)
    (h : st.filtered_preview = some fp) :
    st.on_pattern InputPattern.none =
      (AppStateCmdResult.Keep,
        { st with
            preview :=
              match fp.get_selected_line_number with
              | some n => st.preview.try_select_line_number n
              | Option.none => st.preview
            filtered_preview := Option.none
            removed_pattern := fp.pattern
            pending_pattern := InputPattern.none }) ∧
    (∀ n, fp.get_selected_line_number = some n →
      n ∉ st.preview.lineNumbers →
      (st.on_pattern InputPattern.none).2.preview = st.preview) := by
  have heq := on_pattern_none_overlay_eq st fp InputPattern.none rfl h
  refine ⟨heq, fun n hn hmem => ?_⟩
  rw [heq]
  simp only [hn]
  unfold Preview.try_select_line_number
  rw [if_neg hmem]

/-- Claim C3 (witness): the theorem applied at a concrete state whose
overlay (for pattern "foo") has line 2 selected; line 2 exists in the
base, so it gets selected there. -/
theorem c3_clear_filter_witness :
    stWithOverlay.filtered_preview = some sampleOverlay ∧
      stWithOverlay.on_pattern InputPattern.none =
        (AppStateCmdResult.Keep,
          { stWithOverlay with
              preview := stWithOverlay.preview.try_select_line_number 2
              filtered_preview := Option.none
              removed_pattern := sampleOverlay.pattern
              pending_pattern := InputPattern.none }) :=
  ⟨rfl, (c3_clear_filter stWithOverlay sampleOverlay rfl).1⟩

/-! Claim C5: a present pattern against a non-filterable base preview. -/

/-- Claim C5 (confirmed): when the base preview is not filterable,
`on_pattern` with a present pattern answers the user-visible error
"this preview cant be searched" and leaves the whole state unchanged —
in particular the rejected pattern is not stored as pending. -/
theorem c5_not_filterable (st : PreviewState) (pat : InputPattern)
    (h1 : pat.is_some = true)
    (h2 : st.preview.is_filterable = false) :
    st.on_pattern pat =
      (AppStateCmdResult.DisplayError "this preview can\x27t be searched",
        st) := by
  have hp : pat.is_none = false := by
    unfold InputPattern.is_some at h1
    unfold InputPattern.is_none
    cases hr : pat.raw with
    | none => rw [hr] at h1; exact absurd h1 (by simp)
    | some s => rfl
  exact on_pattern_some_reject_eq st pat hp h2

/-- Claim C5 (witness): the theorem applied at a concrete hex-mode,
non-filterable state with pattern "foo". -/
theorem c5_not_filterable_witness :
    fooPattern.is_some = true ∧
      stNotFilterable.preview.is_filterable = false ∧
      stNotFilterable.on_pattern fooPattern =
        (AppStateCmdResult.DisplayError
          "this preview can\x27t be searched", stNotFilterable) :=
  ⟨by decide, by decide,
    c5_not_filterable stNotFilterable fooPattern (by decide) (by decide)⟩

/-! Claim C4: the two-level Back navigation. -/

/-- Claim C4 (confirmed): with an active overlay, Back is exactly the
call `on_pattern InputPattern.none` (overlay dismissed, its pattern
stored in `removed_pattern`, result Keep); with no overlay, Back answers
PopState and leaves the state unchanged. -/
theorem c4_back (st : PreviewState)
    (wm : String → PreviewMode → Except String Preview) :
    (st.filtered_preview.isSome = true →
      st.on_internal PreviewState.Internal.back wm =
        (PreviewState.InternalResult.cmd (st.on_pattern InputPattern.none).1,
          (st.on_pattern InputPattern.none).2) ∧
      (st.on_internal PreviewState.Internal.back wm).1 =
        PreviewState.InternalResult.cmd AppStateCmdResult.Keep ∧
      ∀ fp, st.filtered_preview = some fp →
        (st.on_internal PreviewState.Internal.back wm).2.removed_pattern =
          fp.pattern ∧
        (st.on_internal PreviewState.Internal.back wm).2.filtered_preview =
          Option.none) ∧
    (st.filtered_preview = Option.none →
      st.on_internal PreviewState.Internal.back wm =
        (PreviewState.InternalResult.cmd AppStateCmdResult.PopState, st)) := by
  constructor
  · intro h
    obtain ⟨fp, hfp⟩ := Option.isSome_iff_exists.mp h
    have hon := on_pattern_none_overlay_eq st fp InputPattern.none rfl hfp
    have hint : st.on_internal PreviewState.Internal.back wm =
        (PreviewState.InternalResult.cmd (st.on_pattern InputPattern.none).1,
          (st.on_pattern InputPattern.none).2) := by
      simp only [PreviewState.on_internal, h, if_true]
    refine ⟨hint, ?_, ?_⟩
    · rw [hint, hon]
    · intro fp2 hfp2
      rw [hfp] at hfp2
      cases hfp2
      rw [hint, hon]
      exact ⟨rfl, rfl⟩
  · intro h
    simp only [PreviewState.on_internal, h, Option.isSome_none,
      Bool.false_eq_true, if_false]

/-- Claim C4 (witness): at a concrete state with an overlay for "foo",
Back keeps the panel and stashes "foo"; at the same state without the
overlay, Back pops. -/
theorem c4_back_witness :
    stWithOverlay.filtered_preview.isSome = true ∧
      (stWithOverlay.on_internal PreviewState.Internal.back withModeOk).1 =
        PreviewState.InternalResult.cmd AppStateCmdResult.Keep ∧
      stPlain.filtered_preview = Option.none ∧
      stPlain.on_internal PreviewState.Internal.back withModeOk =
        (PreviewState.InternalResult.cmd AppStateCmdResult.PopState, stPlain) :=
  ⟨rfl, ((c4_back stWithOverlay withModeOk).1 rfl).2.1, rfl,
    (c4_back stPlain withModeOk).2 rfl⟩

/-! Claim C6: click handling against the body rectangle. -/

/-- Claim C6 (confirmed): `on_click` always answers Keep; when the click
falls within the body rectangle it selects, in the effective view, the
row obtained by translating y relative to the rectangle top; every click
outside the rectangle leaves the state unchanged. -/
theorem c6_on_click (st : PreviewState) (x y : Nat) :
    (st.on_click x y).1 = AppStateCmdResult.Keep ∧
    (st.preview_area.top ≤ y ∧
        y < st.preview_area.top + st.preview_area.height →
      (st.on_click x y).2 =
        st.with_mut_preview
          (fun p => p.try_select_y (y - st.preview_area.top))) ∧
    (¬(st.preview_area.top ≤ y ∧
        y < st.preview_area.top + st.preview_area.height) →
      (st.on_click x y).2 = st) := by
  by_cases hc : st.preview_area.top ≤ y ∧
      y < st.preview_area.top + st.preview_area.height
  · exact ⟨by simp [PreviewState.on_click, hc],
      fun _ => by simp [PreviewState.on_click, hc],
      fun h => absurd hc h⟩
  · exact ⟨by simp [PreviewState.on_click, hc],
      fun h => absurd h hc,
      fun _ => by simp [PreviewState.on_click, hc]⟩

/-- Claim C6 (witness): at a concrete state (body rows 1..20), a click
at y = 3 selects inside the effective view at relative row 2. -/
theorem c6_on_click_witness :
    (stPlain.on_click 5 3).2 =
      stPlain.with_mut_preview
        (fun p => p.try_select_y (3 - stPlain.preview_area.top)) :=
  (c6_on_click stPlain 5 3).2.1 (by decide)

/-! Claim C7: restoring the removed filter (panel-left action). -/

/-- Claim C7 (confirmed): the panel-left action is handled by this
controller exactly when `removed_pattern` is non-empty, in which case it
re-arms the removed pattern as pending, clears `removed_pattern` and
answers Keep; with an empty `removed_pattern` the action falls through
to the generic handler. -/
theorem c7_restore (st : PreviewState)
    (wm : String → PreviewMode → Except String Preview) :
    (st.removed_pattern.is_some = true →
      st.on_internal PreviewState.Internal.panel_left wm =
        (PreviewState.InternalResult.cmd AppStateCmdResult.Keep,
          { st with
              pending_pattern := st.removed_pattern
              removed_pattern := InputPattern.none })) ∧
    (st.removed_pattern.is_some = false →
      st.on_internal PreviewState.Internal.panel_left wm =
        (PreviewState.InternalResult.generic, st)) := by
  constructor
  · intro h
    simp only [PreviewState.on_internal, h, if_true]
  · intro h
    simp only [PreviewState.on_internal, h, Bool.false_eq_true, if_false]

/-- Claim C7 (witness): at a concrete state remembering the removed
pattern "foo", panel-left re-arms it as pending and consumes it. -/
theorem c7_restore_witness :
    stRemoved.removed_pattern.is_some = true ∧
      stRemoved.on_internal PreviewState.Internal.panel_left withModeOk =
        (PreviewState.InternalResult.cmd AppStateCmdResult.Keep,
          { stRemoved with
              pending_pattern := stRemoved.removed_pattern
              removed_pattern := InputPattern.none }) :=
  ⟨by decide, (c7_restore stRemoved withModeOk).1 (by decide)⟩

/-! Claim C8: coalescing of rapid pattern changes. -/

/-- Claim C8 (confirmed): two accepted `on_pattern` calls with P1 then
P2, before any materialization, leave P2 as the pending pattern — the
same pending pattern a single call with P2 would have left — so only P2
is consumed by the next `do_pending_task`. -/
theorem c8_pattern_coalescing (st : PreviewState)
    (p1 p2 : InputPattern)
    (_h1 : (st.on_pattern p1).1 = AppStateCmdResult.Keep)
    (h2 : ((st.on_pattern p1).2.on_pattern p2).1 =
      AppStateCmdResult.Keep) :
    ((st.on_pattern p1).2.on_pattern p2).2.pending_pattern = p2 ∧
    (st.on_pattern p2).2.pending_pattern = p2 := by
  refine ⟨on_pattern_keep_pending _ p2 h2, ?_⟩
  apply on_pattern_keep_pending st p2
  rw [on_pattern_fst_keep_iff] at h2 ⊢
  rcases h2 with h2 | h2
  · exact Or.inl h2
  · rw [on_pattern_preserves_filterable] at h2
    exact Or.inr h2

/-- Claim C8 (witness): the theorem applied with the concrete patterns
"foo" then "bar" at a filterable state. -/
theorem c8_pattern_coalescing_witness :
    (stPlain.on_pattern fooPattern).1 = AppStateCmdResult.Keep ∧
      ((stPlain.on_pattern fooPattern).2.on_pattern barPattern).1 =
        AppStateCmdResult.Keep ∧
      ((stPlain.on_pattern fooPattern).2.on_pattern barPattern
        ).2.pending_pattern = barPattern ∧
      (stPlain.on_pattern barPattern).2.pending_pattern = barPattern :=
  ⟨by decide, by decide,
    (c8_pattern_coalescing stPlain fooPattern barPattern (by decide)
      (by decide)).1,
    (c8_pattern_coalescing stPlain fooPattern barPattern (by decide)
      (by decide)).2⟩

/-! Claim C9: mode switching. -/

/-- Claim C9 (confirmed): `set_mode` answers Keep with the state
untouched (no rebuild) when the base preview already reports the
requested mode; otherwise a successful rebuild replaces the base preview
and updates `prefered_mode`, while a failed rebuild leaves the whole
state unchanged and answers a user-visible error naming the requested
mode and the underlying failure. -/
theorem c9_set_mode (st : PreviewState) (mode : PreviewMode)
    (wm : String → PreviewMode → Except String Preview) :
    (st.preview.get_mode = some mode →
      st.set_mode mode wm = (AppStateCmdResult.Keep, st)) ∧
    (st.preview.get_mode ≠ some mode →
      (∀ p, wm st.path mode = Except.ok p →
        st.set_mode mode wm =
          (AppStateCmdResult.Keep,
            { st with preview := p, prefered_mode := some mode })) ∧
      (∀ e, wm st.path mode = Except.error e →
        st.set_mode mode wm =
          (AppStateCmdResult.DisplayError
            ("Can\x27t display as " ++ mode.debug ++ " : " ++ e),
            st))) := by
  constructor
  · intro h
    simp [PreviewState.set_mode, h]
  · intro h
    constructor
    · intro p hp
      simp only [PreviewState.set_mode, if_neg h, hp]
    · intro e he
      simp only [PreviewState.set_mode, if_neg h, he]

/-- Claim C9 (witness): requesting the mode the base preview already has
(Text) answers Keep with the state unchanged, even against an
always-failing resolver; requesting Hex against the failing resolver
answers the error naming mode and cause. -/
theorem c9_set_mode_witness :
    stPlain.preview.get_mode = some PreviewMode.Text ∧
      stPlain.set_mode PreviewMode.Text withModeErr =
        (AppStateCmdResult.Keep, stPlain) ∧
      stPlain.set_mode PreviewMode.Hex withModeErr =
        (AppStateCmdResult.DisplayError
          ("Can\x27t display as " ++ PreviewMode.Hex.debug ++ " : " ++
            "NotAnImage"), stPlain) :=
  ⟨rfl, (c9_set_mode stPlain PreviewMode.Text withModeErr).1 rfl,
    ((c9_set_mode stPlain PreviewMode.Hex withModeErr).2 (by decide)).2
      "NotAnImage" rfl⟩

/-! Claim C10: the exposed selection descriptor reads the base preview
only. -/

/-- Claim C10 (confirmed): `selection` always derives its line number
from the base preview (0 when the base has no selected line), never from
the filtered overlay — even though, whenever an overlay is present, the
overlay is the effective view (`mut_preview`) targeted by the
selection-mutating commands. -/
theorem c10_selection_from_base (st : PreviewState) :
    st.selection =
      { path := st.path
        stype := PreviewState.SelectionType.File
        line := (st.preview.get_selected_line_number).getD 0 } ∧
    (st.preview.get_selected_line_number = Option.none →
      st.selection.line = 0) ∧
    (∀ fp, st.filtered_preview = some fp → st.mut_preview = fp) := by
  refine ⟨rfl, fun h => ?_, fun fp h => ?_⟩
  · simp [PreviewState.selection, h]
  · simp [PreviewState.mut_preview, h]

/-- Claim C10 (witness): at a concrete state the overlay is the
effective view, yet the reported selection line (2) is read from the
base preview. -/
theorem c10_selection_from_base_witness :
    stWithOverlay.filtered_preview = some sampleOverlay ∧
      stWithOverlay.mut_preview = sampleOverlay :=
  ⟨rfl, (c10_selection_from_base stWithOverlay).2.2 sampleOverlay rfl⟩

end Broot
